import Mathlib

/-
Shallow embedding of the hex-editor terminal viewer (src/main.rs) and
verification of its specification claims.

The program is a single-file Rust terminal hex viewer.  We embed its pure
content here:
  - the line formatter `draw_line` as a pure function producing the list of
    characters printed for one screen row;
  - the viewport controller `move_cursor` / `goto_start` / `goto_end` as pure
    state transformers on a cursor/scroll state, returning the
    `requires_redraw` flag;
  - the event-dispatch `match` of `main`'s loop as `handle_event`;
  - the `total_lines` computation of `main`, including its use of `f64`.

Bytes are modelled as `Nat` (values < 256 in the program, coming from `&[u8]`);
the terminal row count `rows` is the value of a `u16` delivered by
`window_size()`, modelled as `Nat`.
-/

/-- The constant `LINE_LENGTH: usize = 16` from the source. -/
def LINE_LENGTH : Nat := 16

/-- Lowercase hexadecimal digit character for a value `n < 16`
(mirrors what Rust's `{:02x}` / `{:08x}` formatting produces digit-wise). -/
def hexDigit (n : Nat) : Char :=
  if n < 10 then Char.ofNat (48 + n) else Char.ofNat (87 + n)

/-- The two lowercase hex digits `format!("{:02x}", c)` prints for a byte `c < 256`. -/
def byteHex (c : Nat) : List Char :=
  [hexDigit (c / 16), hexDigit (c % 16)]

/-- The bytes of logical line `pos`:
`blob.iter().skip(pos * line_length).take(line_length)` from `draw_line`. -/
def lineBytes (blob : List Nat) (pos line_length : Nat) : List Nat :=
  (blob.drop (pos * line_length)).take line_length

/-- The local `bytes` of `draw_line`: each byte as two lowercase hex digits,
joined with single spaces (`.map(|&c| format!("{:02x}", c)).collect().join(" ")`). -/
def bytesJoined (blob : List Nat) (pos line_length : Nat) : List Char :=
  List.intercalate [' '] ((lineBytes blob pos line_length).map byteHex)

/-- The hex-byte field left-aligned and space-padded to `line_length * 3`
characters, as produced by the `{bytes: <width$}` format specifier
(no truncation: Rust width only pads). -/
def bytesPadded (blob : List Nat) (pos line_length : Nat) : List Char :=
  bytesJoined blob pos line_length
    ++ List.replicate (line_length * 3 - (bytesJoined blob pos line_length).length) ' '

/-- Rust's `u8::is_ascii_alphanumeric` on a byte value. -/
def isAsciiAlphanumeric (c : Nat) : Bool :=
  (48 ≤ c && c ≤ 57) || (65 ≤ c && c ≤ 90) || (97 ≤ c && c ≤ 122)

/-- The local `chars` of `draw_line`: the ASCII gutter, one character per byte
of the line, alphanumeric bytes as themselves and every other byte as a dot. -/
def charsGutter (blob : List Nat) (pos line_length : Nat) : List Char :=
  (lineBytes blob pos line_length).map
    (fun c => if isAsciiAlphanumeric c then Char.ofNat c else '.')

/-- The address field `format!("{:08x}", line_num)`: lowercase hex digits of
`n`, zero-padded on the left to a minimum width of 8 characters. -/
def hexAddr8 (n : Nat) : List Char :=
  List.replicate (8 - (Nat.toDigits 16 n).length) '0' ++ Nat.toDigits 16 n

/-- The local `line` of `draw_line`:
`format!("{line_num:08x}: {bytes: <width$} {chars}", ...)` with
`line_num = pos * line_length` and `width = line_length * 3`. -/
def lineString (blob : List Nat) (pos line_length : Nat) : List Char :=
  hexAddr8 (pos * line_length) ++ [':', ' ']
    ++ bytesPadded blob pos line_length ++ [' ']
    ++ charsGutter blob pos line_length

/-- The full sequence of characters `draw_line` prints for one screen row:
the formatted line right-padded with spaces when shorter than `cols`, and
truncated to `cols` characters otherwise (`line[..cols]`). -/
def draw_line (blob : List Nat) (pos line_length cols : Nat) : List Char :=
  let line := lineString blob pos line_length
  if line.length < cols then
    line ++ List.replicate (cols - line.length) ' '
  else
    line.take cols

/-- A terminal snapshot the viewport controller works on: the cursor position
`(col, row)` as `cursor::position()` reports it (a pair of `u16`s, the column
first), together with the scroll offset `start` owned by `main`. -/
structure TermState where
  col : Nat
  row : Nat
  start : Nat
  deriving DecidableEq, Repr

/-- The `Direction` enumeration from the source. -/
inductive Direction where
  | up
  | down
  | left
  | right
  deriving DecidableEq

/-- The bound `max_start` computed inside `move_cursor`'s `Down` arm:
`if total_lines <= rows { 0 } else { total_lines - rows }`. -/
def maxStartDown (rows total_lines : Nat) : Nat :=
  if total_lines ≤ rows then 0 else total_lines - rows

/-- The bound `max_start` computed inside `goto_end`:
`if total_lines <= rows { 0 } else { total_lines - (rows - 1) }`. -/
def maxStartEnd (rows total_lines : Nat) : Nat :=
  if total_lines ≤ rows then 0 else total_lines - (rows - 1)

/-- The `move_cursor` function of the source as a pure state transformer.
`rows` is the fresh `window_size()?.rows` value, `total_lines` the line count
computed in `main`.  Returns the updated cursor/scroll state (the source
issues `MoveTo(curos_pos.0, curos_pos.1)` at the end) and the
`requires_redraw` flag.  The subtractions are exact whenever the theorems
below assume `2 ≤ rows` (terminal row counts are `u16` values). -/
def move_cursor (rows total_lines : Nat) (direction : Direction)
    (s : TermState) : TermState × Bool :=
  match direction with
  | .up =>
      if s.row > 0 then ({ s with row := s.row - 1 }, false)
      else if s.start > 0 then ({ s with start := s.start - 1 }, true)
      else (s, false)
  | .down =>
      if s.row < rows - 2 then ({ s with row := s.row + 1 }, false)
      else if s.start < maxStartDown rows total_lines then
        ({ s with start := s.start + 1 }, true)
      else (s, false)
  | .left =>
      if s.col > 10 then ({ s with col := s.col - 1 }, false)
      else (s, false)
  | .right =>
      if s.col < 10 + LINE_LENGTH * 3 then ({ s with col := s.col + 1 }, false)
      else (s, false)

/-- The `goto_start` function of the source: `MoveTo(10, 0)`, then reset
`start` to 0 and report a redraw exactly when it was not 0 already. -/
def goto_start (s : TermState) : TermState × Bool :=
  let s := { s with col := 10, row := 0 }
  if s.start > 0 then ({ s with start := 0 }, true) else (s, false)

/-- The `goto_end` function of the source: `MoveTo(10, rows - 2)`, then jump
`start` to its `max_start` bound and report a redraw exactly when it was
strictly below that bound. -/
def goto_end (rows total_lines : Nat) (s : TermState) : TermState × Bool :=
  let s := { s with col := 10, row := rows - 2 }
  if s.start < maxStartEnd rows total_lines then
    ({ s with start := maxStartEnd rows total_lines }, true)
  else (s, false)

/-- The four navigation operations of the claims: the two scrolling cursor
moves plus the two jumps (Left/Right never touch `start`). -/
inductive NavOp where
  | up
  | down
  | gotoStartOp
  | gotoEndOp
  deriving DecidableEq

/-- One navigation step: dispatch a `NavOp` to the source operation it names
and keep the resulting state (dropping the redraw flag). -/
def execOp (rows total_lines : Nat) (op : NavOp) (s : TermState) : TermState :=
  match op with
  | .up => (move_cursor rows total_lines .up s).1
  | .down => (move_cursor rows total_lines .down s).1
  | .gotoStartOp => (goto_start s).1
  | .gotoEndOp => (goto_end rows total_lines s).1

/-- Run a sequence of navigation operations from an initial state. -/
def execOps (rows total_lines : Nat) (ops : List NavOp) (s : TermState) : TermState :=
  ops.foldl (fun s op => execOp rows total_lines op s) s

/-- The scroll bound exactly as the specification words it:
`max(0, total_lines - visible_rows)` with `visible_rows = rows - 1`,
computed over the integers. -/
def specMaxStart (rows total_lines : Nat) : Nat :=
  ((total_lines : Int) - ((rows : Int) - 1)).toNat

/-- The mouse event kinds the dispatch distinguishes. -/
inductive MouseKind where
  | scrollUp
  | scrollDown
  | otherMouse
  deriving DecidableEq

/-- The terminal events the dispatch distinguishes: a character key press, a
mouse event, a resize (with the new dimensions), and anything else. -/
inductive TermEvent where
  | key : Char → TermEvent
  | mouse : MouseKind → TermEvent
  | resize : Nat → Nat → TermEvent
  | otherEvent
  deriving DecidableEq

/-- Outcome of one loop iteration's dispatch: either the loop breaks (the
quit key) or it continues with an updated state and a `requires_redraw` flag. -/
inductive Step where
  | quit
  | cont : TermState → Bool → Step
  deriving DecidableEq

/-- The redraw flag a continuing dispatch produced (`false` for `quit`, whose
iteration never reaches the redraw check). -/
def Step.redraw : Step → Bool
  | .quit => false
  | .cont _ b => b

/-- The state a dispatch leaves behind (`quit` leaves it unchanged). -/
def Step.state (s : TermState) : Step → TermState
  | .quit => s
  | .cont t _ => t

/-- The event-dispatch `match` in `main`'s loop, one iteration: each key is
routed exactly as in the source (`'q'` breaks; `'h' 'j' 'k' 'l'` go to
`move_cursor`; `'0'` moves the cursor to column 10 of the current row and
yields `true`; `'$'` moves it to column `10 + LINE_LENGTH * 3` and yields
`false`; `'g'`/`'G'` go to the jumps; anything else yields `false`), mouse
scroll maps to Up/Down, and a resize event yields `true` unconditionally. -/
def handle_event (rows total_lines : Nat) (e : TermEvent) (s : TermState) : Step :=
  match e with
  | .key c =>
      if c = 'q' then .quit
      else if c = 'h' then
        let p := move_cursor rows total_lines .left s; .cont p.1 p.2
      else if c = 'j' then
        let p := move_cursor rows total_lines .down s; .cont p.1 p.2
      else if c = 'k' then
        let p := move_cursor rows total_lines .up s; .cont p.1 p.2
      else if c = 'l' then
        let p := move_cursor rows total_lines .right s; .cont p.1 p.2
      else if c = '0' then .cont { s with col := 10 } true
      else if c = '$' then .cont { s with col := 10 + LINE_LENGTH * 3 } false
      else if c = 'g' then
        let p := goto_start s; .cont p.1 p.2
      else if c = 'G' then
        let p := goto_end rows total_lines s; .cont p.1 p.2
      else .cont s false
  | .mouse k =>
      match k with
      | .scrollUp => let p := move_cursor rows total_lines .up s; .cont p.1 p.2
      | .scrollDown => let p := move_cursor rows total_lines .down s; .cont p.1 p.2
      | .otherMouse => .cont s false
  | .resize _ _ => .cont s true
  | .otherEvent => .cont s false

/-- The unit in the last place of the IEEE-754 double whose binade contains
`m`: halve `m` until it drops below `2^53` and return the matching power of
two.  The fuel argument makes the recursion structural; fuel 64 suffices for
every `usize` value (any `m < 2^(53 + fuel)` is fully processed). -/
def ulpAux : Nat → Nat → Nat
  | 0, _ => 1
  | fuel + 1, m => if m < 2 ^ 53 then 1 else 2 * ulpAux fuel (m / 2)

/-- Round a natural number to the value the IEEE-754 double nearest to it
represents (round to nearest, ties to even), i.e. the exact value of Rust's
`n as f64` for `n < 2^64`: below `2^53` the conversion is exact; above, the
number is rounded to the nearest multiple of its ulp `2^(log2 n - 52)` (one
unit in the last place of the 53-bit significand), ties going to the even
multiple. -/
def rnd53 (n : Nat) : Nat :=
  if n < 2 ^ 53 then n
  else
    let ulp := ulpAux 64 n
    let q := n / ulp
    let r := n % ulp
    if 2 * r < ulp then q * ulp
    else if ulp < 2 * r then (q + 1) * ulp
    else if q % 2 = 0 then q * ulp else (q + 1) * ulp

/-- The `total_lines` computation of `main`:
`(content.len() as f64 / LINE_LENGTH as f64).ceil() as usize`.
`len as f64` rounds ties-to-even (`rnd53`); the division by `16.0` is exact
(it only lowers the exponent by 4); `.ceil()` of the quotient is the exact
integer `ceil(rnd53 len / 16)`, which is representable (its significand is no
wider than the quotient's) and below `usize::MAX`, so the final `as usize`
cast is exact.  Over `Nat`, `ceil(m / 16) = (m + 15) / 16`. -/
def total_lines_main (len : Nat) : Nat :=
  (rnd53 len + 15) / 16

/-- C3: For every buffer, every line index, and every output width, the string
produced by the line formatter has length exactly equal to the output width:
shorter formatted lines are right-padded with spaces to that width and longer
ones are truncated to exactly that many characters. -/
theorem C3_draw_line_length (blob : List Nat) (pos line_length cols : Nat) :
    (draw_line blob pos line_length cols).length = cols := by
  by_cases h : (lineString blob pos line_length).length < cols <;>
    simp only [draw_line, h, if_pos, if_neg, not_false_iff, List.length_append,
      List.length_replicate, List.length_take, if_true, if_false] <;>
    omega

/-- C10: For every prior viewport state, dispatching a terminal Resize event
yields `requires_redraw = true` unconditionally. -/
theorem C10_resize_redraw (rows total_lines w h : Nat) (s : TermState) :
    handle_event rows total_lines (.resize w h) s = .cont s true := rfl

/-- C4 fails as stated: the jump-to-column-0 handler (`'0'`) does signal
`requires_redraw`.  Dispatching `'0'` at cursor `(20, 3)` with `start = 1`
returns the redraw flag `true`, contradicting the claim that neither of the
two horizontal jump handlers triggers a full repaint. -/
theorem C4_counterexample :
    (handle_event 10 5 (TermEvent.key '0') ⟨20, 3, 1⟩).redraw = true := by decide

/-- C4 (amended): both horizontal jump handlers reposition the cursor column
only, within the current row, leaving `start` and the row unchanged, and the
target columns 10 and `10 + LINE_LENGTH * 3` delimit the hex field; but the
jump-to-column-0 handler signals `requires_redraw = true` (triggering a full
repaint), while only the jump-to-end-of-hex-field handler signals `false`. -/
theorem C4_amended_col_jumps (rows total_lines : Nat) (s : TermState) :
    handle_event rows total_lines (.key '0') s = .cont { s with col := 10 } true
    ∧ handle_event rows total_lines (.key '$') s
        = .cont { s with col := 10 + LINE_LENGTH * 3 } false
    ∧ 10 ≤ 10 + LINE_LENGTH * 3 := by
  refine ⟨rfl, rfl, by decide⟩

/-- C6: Left moves the cursor one column left exactly when the column exceeds
10 and is otherwise a no-op; Right moves one column right exactly when the
column is below `10 + LINE_LENGTH * 3` and is otherwise a no-op; neither
operation changes `start` or the row, and neither ever reports
`requires_redraw = true`. -/
theorem C6_left_right (rows total_lines : Nat) (s : TermState) :
    (move_cursor rows total_lines .left s).2 = false
    ∧ (move_cursor rows total_lines .left s).1.start = s.start
    ∧ (move_cursor rows total_lines .left s).1.row = s.row
    ∧ (move_cursor rows total_lines .left s).1.col
        = (if 10 < s.col then s.col - 1 else s.col)
    ∧ (move_cursor rows total_lines .right s).2 = false
    ∧ (move_cursor rows total_lines .right s).1.start = s.start
    ∧ (move_cursor rows total_lines .right s).1.row = s.row
    ∧ (move_cursor rows total_lines .right s).1.col
        = (if s.col < 10 + LINE_LENGTH * 3 then s.col + 1 else s.col) := by
  by_cases h1 : 10 < s.col <;> by_cases h2 : s.col < 10 + LINE_LENGTH * 3 <;>
    simp [move_cursor, h1, h2]

/-- C1 fails as stated: the `max_start` bound of the Down operation and the
`max_start` bound of GoToEnd are not the same function.  At `rows = 3` and
`total_lines = 5`, Down computes `5 - 3 = 2` while GoToEnd computes
`5 - (3 - 1) = 3`. -/
theorem C1_counterexample : ¬ (maxStartDown 3 5 = maxStartEnd 3 5) := by decide

/-- C1 (amended): the two bounds agree (both zero) exactly when
`total_lines ≤ rows`; when `total_lines > rows`, Down's bound is
`total_lines - rows` while GoToEnd's is `total_lines - (rows - 1)`, exceeding
Down's by exactly one line. -/
theorem C1_amended_bounds (rows total_lines : Nat) (h : 1 ≤ rows) :
    maxStartEnd rows total_lines
      = maxStartDown rows total_lines + (if rows < total_lines then 1 else 0) := by
  by_cases htl : total_lines ≤ rows
  · simp [maxStartEnd, maxStartDown, htl, Nat.not_lt.mpr htl]
  · have hlt : rows < total_lines := Nat.not_le.mp htl
    simp [maxStartEnd, maxStartDown, htl, hlt]
    omega

/-- Witness for the amended C1 at `rows = 3`, `total_lines = 5`:
GoToEnd's bound 3 is Down's bound 2 plus one. -/
theorem C1_amended_witness :
    1 ≤ 3 ∧ maxStartEnd 3 5 = maxStartDown 3 5 + (if 3 < 5 then 1 else 0) :=
  ⟨by decide, C1_amended_bounds 3 5 (by decide)⟩

/-- C5: For the 5-byte buffer `[0xFF, 0x00, 0x61, 0x20, 0x39]`, line 0's hex
field is `"ff 00 61 20 39"` right-padded with spaces to width 48, and the
ASCII gutter is `"..a.9"`: the non-alphanumeric bytes 0xFF, 0x00 and the
space 0x20 all render as a dot. -/
theorem C5_example_line :
    bytesPadded [0xFF, 0x00, 0x61, 0x20, 0x39] 0 LINE_LENGTH
        = "ff 00 61 20 39".toList ++ List.replicate 34 ' '
    ∧ (bytesPadded [0xFF, 0x00, 0x61, 0x20, 0x39] 0 LINE_LENGTH).length = 48
    ∧ charsGutter [0xFF, 0x00, 0x61, 0x20, 0x39] 0 LINE_LENGTH = "..a.9".toList := by
  decide

/-- C7: From every initial state, GoToStart, then GoToEnd, then GoToStart
leaves `start = 0`, and each of the three steps reports `requires_redraw`
exactly when that step changed `start` (a jump already at its target reports
`false`). -/
theorem C7_jump_cycle (rows total_lines : Nat) (_h : 2 ≤ rows) (s0 : TermState) :
    ((goto_start ((goto_end rows total_lines ((goto_start s0).1)).1)).1).start = 0
    ∧ ((goto_start s0).2 = true ↔ ((goto_start s0).1).start ≠ s0.start)
    ∧ ((goto_end rows total_lines ((goto_start s0).1)).2 = true ↔
        ((goto_end rows total_lines ((goto_start s0).1)).1).start
          ≠ ((goto_start s0).1).start)
    ∧ ((goto_start ((goto_end rows total_lines ((goto_start s0).1)).1)).2 = true ↔
        ((goto_start ((goto_end rows total_lines ((goto_start s0).1)).1)).1).start
          ≠ ((goto_end rows total_lines ((goto_start s0).1)).1).start) := by
  rcases Nat.eq_zero_or_pos s0.start with h0 | h0 <;>
    by_cases hM : 0 < maxStartEnd rows total_lines <;>
      simp [goto_start, goto_end, h0, hM] <;>
      omega

/-- Witness for C7 at `rows = 4`, `total_lines = 9`, initial state
`(col, row, start) = (12, 2, 3)`. -/
theorem C7_witness :
    2 ≤ 4
    ∧ (((goto_start ((goto_end 4 9 ((goto_start ⟨12, 2, 3⟩).1)).1)).1).start = 0
      ∧ ((goto_start (⟨12, 2, 3⟩ : TermState)).2 = true ↔
          ((goto_start (⟨12, 2, 3⟩ : TermState)).1).start
            ≠ (⟨12, 2, 3⟩ : TermState).start)
      ∧ ((goto_end 4 9 ((goto_start ⟨12, 2, 3⟩).1)).2 = true ↔
          ((goto_end 4 9 ((goto_start ⟨12, 2, 3⟩).1)).1).start
            ≠ ((goto_start (⟨12, 2, 3⟩ : TermState)).1).start)
      ∧ ((goto_start ((goto_end 4 9 ((goto_start ⟨12, 2, 3⟩).1)).1)).2 = true ↔
          ((goto_start ((goto_end 4 9 ((goto_start ⟨12, 2, 3⟩).1)).1)).1).start
            ≠ ((goto_end 4 9 ((goto_start ⟨12, 2, 3⟩).1)).1).start)) :=
  ⟨by decide, C7_jump_cycle 4 9 (by decide) ⟨12, 2, 3⟩⟩

/-- Every single navigation operation preserves the scroll bound of the
specification: if `start` is at most `max(0, total_lines - (rows - 1))`
before the step, it still is afterwards (for any terminal with at least two
rows). -/
theorem execOp_start_le_spec (rows total_lines : Nat) (h : 2 ≤ rows) (op : NavOp)
    (s : TermState) (hs : s.start ≤ specMaxStart rows total_lines) :
    (execOp rows total_lines op s).start ≤ specMaxStart rows total_lines := by
  rcases op with _ | _ | _ | _ <;>
    simp only [execOp, move_cursor, goto_start, goto_end, maxStartDown, maxStartEnd,
      specMaxStart] at hs ⊢ <;>
    split_ifs <;> simp_all <;> omega

/-- C2: After any sequence of navigation operations (Up, Down, GoToStart,
GoToEnd) starting from `start = 0`, the scroll offset satisfies
`0 ≤ start ≤ max(0, total_lines - visible_rows)` with
`visible_rows = rows - 1`, for any terminal with at least two rows. -/
theorem C2_start_invariant (rows total_lines : Nat) (h : 2 ≤ rows)
    (ops : List NavOp) (s0 : TermState) (h0 : s0.start = 0) :
    0 ≤ (execOps rows total_lines ops s0).start
    ∧ (execOps rows total_lines ops s0).start ≤ specMaxStart rows total_lines := by
  refine ⟨Nat.zero_le _, ?_⟩
  have key : ∀ (l : List NavOp) (s : TermState),
      s.start ≤ specMaxStart rows total_lines →
      (execOps rows total_lines l s).start ≤ specMaxStart rows total_lines := by
    intro l
    induction l with
    | nil => intro s hs; exact hs
    | cons op rest ih =>
        intro s hs
        exact ih _ (execOp_start_le_spec rows total_lines h op s hs)
  exact key ops s0 (by simp [h0])

/-- Witness for C2 at `rows = 4`, `total_lines = 10`, running
Down, Down, GoToEnd, Up from the post-startup state `(10, 0, 0)`. -/
theorem C2_witness :
    2 ≤ 4
    ∧ (⟨10, 0, 0⟩ : TermState).start = 0
    ∧ (0 ≤ (execOps 4 10 [NavOp.down, NavOp.down, NavOp.gotoEndOp, NavOp.up]
          ⟨10, 0, 0⟩).start
      ∧ (execOps 4 10 [NavOp.down, NavOp.down, NavOp.gotoEndOp, NavOp.up]
          ⟨10, 0, 0⟩).start ≤ specMaxStart 4 10) :=
  ⟨by decide, rfl,
    C2_start_invariant 4 10 (by decide) [NavOp.down, NavOp.down, NavOp.gotoEndOp, NavOp.up]
      ⟨10, 0, 0⟩ rfl⟩

/-- C9: the line formatter is total and never reads past the end of the
buffer: the slice it renders has exactly `min line_length (len - pos * line_length)`
bytes (fewer at the final line, zero beyond the end), and for a line entirely
beyond the end of the buffer the formatted line still carries the address
field, followed by an all-space hex field and an empty ASCII gutter. -/
theorem C9_formatter_total (blob : List Nat) (pos line_length : Nat) :
    (lineBytes blob pos line_length).length
        = min line_length (blob.length - pos * line_length)
    ∧ (blob.length ≤ pos * line_length →
        lineString blob pos line_length
          = hexAddr8 (pos * line_length) ++ [':', ' ']
            ++ List.replicate (line_length * 3) ' ' ++ [' ']) := by
  constructor
  · simp [lineBytes]
  · intro hle
    have hnil : blob.drop (pos * line_length) = [] := List.drop_eq_nil_of_le hle
    simp [lineString, bytesPadded, bytesJoined, charsGutter, lineBytes, hnil,
      List.intercalate]

/-- Witness for C9 on the 3-byte buffer `[190, 7, 200]` at line 2, which lies
entirely beyond the end of the buffer: zero bytes are rendered and the line
is the address plus blank fields. -/
theorem C9_witness :
    ([190, 7, 200] : List Nat).length ≤ 2 * 16
    ∧ (lineBytes [190, 7, 200] 2 16).length
        = min 16 (([190, 7, 200] : List Nat).length - 2 * 16)
    ∧ lineString [190, 7, 200] 2 16
        = hexAddr8 (2 * 16) ++ [':', ' '] ++ List.replicate (16 * 3) ' ' ++ [' '] :=
  ⟨by decide, (C9_formatter_total [190, 7, 200] 2 16).1,
    (C9_formatter_total [190, 7, 200] 2 16).2 (by decide)⟩

/-- C8 fails as stated: `main` computes the line count through `f64`, and for
a buffer of `2^53 + 1` bytes the `usize`-to-`f64` conversion rounds the length
down to `2^53` (ties to even), so the computed `total_lines` is `2^49` while
the exact value `ceil((2^53 + 1) / 16)` is `2^49 + 1`. -/
theorem C8_counterexample :
    total_lines_main (2 ^ 53 + 1) = 2 ^ 49
    ∧ (2 ^ 53 + 1 + 15) / 16 = 2 ^ 49 + 1 := by
  constructor <;> decide

/-- C8 (amended): for every buffer length up to `2^53` — in particular every
length a real file read into memory can have — the conversion to `f64` is
exact and the computed `total_lines` equals the exact ceiling
`ceil(len / 16) = (len + 15) / 16`; the two flanking inequalities state the
ceiling property itself. -/
theorem C8_amended_total_lines (len : Nat) (h : len ≤ 2 ^ 53) :
    total_lines_main len = (len + 15) / 16
    ∧ len ≤ 16 * ((len + 15) / 16)
    ∧ 16 * ((len + 15) / 16) < len + 16 := by
  have hr : rnd53 len = len := by
    rcases Nat.lt_or_ge len (2 ^ 53) with hl | hg
    · unfold rnd53
      rw [if_pos hl]
    · have he : len = 2 ^ 53 := Nat.le_antisymm h hg
      subst he
      decide
  refine ⟨by simp [total_lines_main, hr], by omega, by omega⟩

/-- Witness for the amended C8 at `len = 33`: three lines. -/
theorem C8_witness :
    33 ≤ 2 ^ 53
    ∧ (total_lines_main 33 = (33 + 15) / 16
      ∧ 33 ≤ 16 * ((33 + 15) / 16)
      ∧ 16 * ((33 + 15) / 16) < 33 + 16) :=
  ⟨by decide, C8_amended_total_lines 33 (by decide)⟩
